import Mathlib

/-!
Shallow embedding of the voice-demo client (App component): the playback
scheduler, the interruption handler, the lead-record merge of tool calls,
the connection state machine, and the capture-side volume meter.
Time values and buffer durations are modelled as exact rationals; the
browser clock (`ctx.currentTime`) is an explicit input to each event.
-/

/-- One scheduled playback source (`AudioBufferSourceNode`): the object
identity of the JS node is modelled by a fresh numeric id, together with
the time `source.start(...)` was called with and the buffer's duration. -/
structure SourceNode where
  id : Nat
  startTime : ℚ
  duration : ℚ
deriving DecidableEq, Repr

/-- The playback-side state of the App: `nextStartTimeRef`,
`scheduledSourcesRef` (a JS `Set` of source nodes, modelled as a
duplicate-free-by-id list in insertion order), the `isModelSpeaking`
React state, and a counter supplying fresh node identities. -/
structure PlaybackState where
  nextStartTime : ℚ
  scheduledSources : List SourceNode
  isModelSpeaking : Bool
  nextId : Nat
deriving DecidableEq, Repr

/-- Initial playback state: cursor 0, empty set, not speaking. -/
def initPlayback : PlaybackState :=
  { nextStartTime := 0, scheduledSources := [], isModelSpeaking := false, nextId := 0 }

/-- The start time the scheduler picks for a new buffer, from
`if (nextStartTimeRef.current < now) nextStartTimeRef.current = now + 0.05`
followed by `source.start(nextStartTimeRef.current)`. -/
def scheduleTime (now cursor : ℚ) : ℚ :=
  if cursor < now then now + 1/20 else cursor

/-- One inbound message carrying an audio payload, at clock time `now`.
`decoded = some d` models `decodeAudioData` succeeding with a buffer of
duration `d`; `decoded = none` models the decode throwing (the `catch`
branch only logs). Mirrors the code order: `setIsModelSpeaking(true)` is
executed before the decode is attempted; on success the cursor is clamped
forward, the source started at the cursor, added to the set, and the
cursor advanced by the buffer's duration. -/
def onAudioData (now : ℚ) (decoded : Option ℚ) (s : PlaybackState) : PlaybackState :=
  let s1 := { s with isModelSpeaking := true }
  match decoded with
  | none => s1
  | some d =>
      let start := scheduleTime now s1.nextStartTime
      { s1 with
          nextStartTime := start + d,
          scheduledSources := s1.scheduledSources ++ [⟨s1.nextId, start, d⟩],
          nextId := s1.nextId + 1 }

/-- Natural completion of one source (`source.onended`): the node is
deleted from the set and, if the set became empty, the speaking indicator
is cleared. -/
def onSourceEnded (src : SourceNode) (s : PlaybackState) : PlaybackState :=
  let rest := s.scheduledSources.eraseP (fun n => n.id = src.id)
  { s with
      scheduledSources := rest,
      isModelSpeaking := if rest.length = 0 then false else s.isModelSpeaking }

/-- The interruption branch of `onmessage` (`msg.serverContent?.interrupted`),
with the output audio context present: every node in the set is stopped
(removal models the forced stop), the set is cleared, the speaking
indicator cleared, and the cursor reset to the current clock time. -/
def onInterrupted (now : ℚ) (s : PlaybackState) : PlaybackState :=
  { s with scheduledSources := [], isModelSpeaking := false, nextStartTime := now }

/-- C1: On an interruption signal, the handler clears the ScheduledSourceSet
(after force-stopping each handle), sets the speaking indicator to false,
and resets the cursor to the current clock time `t`; a buffer arriving
after the interruption (clock still at `t`) is scheduled to start exactly
at that reset cursor `t` — independent of every previously queued time. -/
theorem interruption_resets_playback (s : PlaybackState) (t d : ℚ) :
    (onInterrupted t s).scheduledSources = [] ∧
    (onInterrupted t s).isModelSpeaking = false ∧
    (onInterrupted t s).nextStartTime = t ∧
    ((onAudioData t (some d) (onInterrupted t s)).scheduledSources.map
      SourceNode.startTime) = [t] := by
  refine ⟨rfl, rfl, rfl, ?_⟩
  simp [onAudioData, onInterrupted, scheduleTime]

/-- C2: Three buffers of durations `d1, d2, d3` arriving while the clock
stays at 0, starting from the initial state (cursor 0): the first is
scheduled at 0, the second at `d1`, the third at `d1 + d2` (exactly, in
the rational model), and the cursor ends at `d1 + d2 + d3` because it is
advanced by each buffer's duration after scheduling. -/
theorem scheduler_contiguity (d1 d2 d3 : ℚ)
    (h1 : 0 ≤ d1) (h2 : 0 ≤ d2) (_h3 : 0 ≤ d3) :
    ((onAudioData 0 (some d3) (onAudioData 0 (some d2)
        (onAudioData 0 (some d1) initPlayback))).scheduledSources.map
      SourceNode.startTime) = [0, d1, d1 + d2] ∧
    (onAudioData 0 (some d3) (onAudioData 0 (some d2)
        (onAudioData 0 (some d1) initPlayback))).nextStartTime = d1 + d2 + d3 := by
  have n1 : ¬ (d1 < 0) := not_lt.mpr h1
  have n2 : ¬ (d1 + d2 < 0) := not_lt.mpr (by linarith)
  simp [onAudioData, initPlayback, scheduleTime, n1, n2]

/-- Witness for C2 at `d1 = d2 = d3 = 1`. -/
theorem scheduler_contiguity_witness :
    (0:ℚ) ≤ 1 ∧
    ((onAudioData 0 (some 1) (onAudioData 0 (some 1)
        (onAudioData 0 (some 1) initPlayback))).scheduledSources.map
      SourceNode.startTime) = [0, 1, 1 + 1] :=
  ⟨by norm_num,
   (scheduler_contiguity 1 1 1 (by norm_num) (by norm_num) (by norm_num)).1⟩

/-- C3: A buffer arriving at clock time `now` is appended to the set with
start time `scheduleTime now cursor`; whenever the cursor is strictly
behind the clock, that start equals `now + 0.05`, and in every case the
start is never in the past (`now ≤ start`). -/
theorem cursor_clamp_no_past_start (s : PlaybackState) (now d : ℚ) :
    (onAudioData now (some d) s).scheduledSources =
      s.scheduledSources ++ [⟨s.nextId, scheduleTime now s.nextStartTime, d⟩] ∧
    (s.nextStartTime < now → scheduleTime now s.nextStartTime = now + 1/20) ∧
    now ≤ scheduleTime now s.nextStartTime := by
  refine ⟨rfl, ?_, ?_⟩
  · intro h
    simp [scheduleTime, h]
  · unfold scheduleTime
    split
    · linarith
    · linarith [not_lt.mp (by assumption : ¬ s.nextStartTime < now)]

/-- Witness for C3 at the initial state with the clock at 1: the cursor
(0) is behind, so the buffer is scheduled at `1 + 0.05`. -/
theorem cursor_clamp_no_past_start_witness :
    scheduleTime 1 initPlayback.nextStartTime = 1 + 1/20 ∧
    (1:ℚ) ≤ scheduleTime 1 initPlayback.nextStartTime :=
  ⟨(cursor_clamp_no_past_start initPlayback 1 1).2.1 (by norm_num [initPlayback]),
   (cursor_clamp_no_past_start initPlayback 1 1).2.2⟩

/-- C4 (code evaluation at the failing input): a message whose audio
payload fails to decode, arriving in the initial state, leaves the
speaking indicator true while the ScheduledSourceSet is empty — the code
sets `isModelSpeaking` to true before attempting the decode and the
decode-error branch never clears it, contradicting the claimed invariant
that the indicator is true iff the set is non-empty. -/
theorem decode_failure_speaking_flag :
    (onAudioData 0 none initPlayback).isModelSpeaking = true ∧
    (onAudioData 0 none initPlayback).scheduledSources = [] := by
  exact ⟨rfl, rfl⟩

/-- The `LeadData` record: a sparse mapping of the eight optional string
fields, `none` meaning the field is absent from the JS object. `ToolArgs`
in the source has exactly the same shape, so the same type models the
argument object of a tool call. -/
structure LeadData where
  name : Option String := none
  company : Option String := none
  email : Option String := none
  role : Option String := none
  useCase : Option String := none
  teamSize : Option String := none
  timeline : Option String := none
  summary : Option String := none
deriving DecidableEq, Repr

/-- The empty lead record created at session start (`useState({})`). -/
def emptyLead : LeadData := {}

/-- JS object-spread semantics for one optional field of
`(\x7b ...prev, ...args \x7d)`: a field present in `args` overrides,
an absent field keeps the previous value. -/
def overrideField (argField prevField : Option String) : Option String :=
  match argField with
  | some v => some v
  | none => prevField

/-- The merge `setLeadData(prev => (\x7b ...prev, ...args \x7d))` applied
field by field. -/
def mergeLead (prev args : LeadData) : LeadData :=
  { name := overrideField args.name prev.name,
    company := overrideField args.company prev.company,
    email := overrideField args.email prev.email,
    role := overrideField args.role prev.role,
    useCase := overrideField args.useCase prev.useCase,
    teamSize := overrideField args.teamSize prev.teamSize,
    timeline := overrideField args.timeline prev.timeline,
    summary := overrideField args.summary prev.summary }

/-- One function call delivered in `msg.toolCall.functionCalls`. -/
structure FunctionCall where
  id : String
  name : String
  args : LeadData
deriving DecidableEq, Repr

/-- One entry of the acknowledgment list sent back via
`sendToolResponse`: the call id, the call name, and the success result
string. -/
structure ToolResponse where
  id : String
  name : String
  result : String
deriving DecidableEq, Repr

/-- The tool-call loop of `onmessage`: for each function call named
`updateLeadInfo`, merge its arguments into the lead record and append an
acknowledgment with the same id and a success result; every other call is
skipped. Returns the final lead record and the response list sent back. -/
def handleToolCall : List FunctionCall → LeadData → LeadData × List ToolResponse
  | [], lead => (lead, [])
  | fc :: rest, lead =>
      if fc.name = "updateLeadInfo" then
        let next := handleToolCall rest (mergeLead lead fc.args)
        (next.1, ⟨fc.id, fc.name, "CRM Updated Successfully"⟩ :: next.2)
      else
        handleToolCall rest lead

/-- C5: Lead merge is additive: applying `name = "Asha"` then
`company = "Acme"` to the empty record yields a record with both fields
set and all others absent, and a later `name = "Beta"` overwrites only
`name`, leaving `company` intact. -/
theorem lead_merge_example :
    mergeLead (mergeLead emptyLead { name := some "Asha" })
        { company := some "Acme" } =
      { name := some "Asha", company := some "Acme" } ∧
    mergeLead (mergeLead (mergeLead emptyLead { name := some "Asha" })
        { company := some "Acme" }) { name := some "Beta" } =
      { name := some "Beta", company := some "Acme" } := by
  exact ⟨rfl, rfl⟩

/-- Every `updateLeadInfo` call in the list produces an acknowledgment in
the response list carrying the same id, the same name, and the success
result string. Helper induction shared by C7. -/
theorem handleToolCall_ack (calls : List FunctionCall) (lead : LeadData)
    (fc : FunctionCall) (hmem : fc ∈ calls) (hname : fc.name = "updateLeadInfo") :
    ∃ r ∈ (handleToolCall calls lead).2,
      r.id = fc.id ∧ r.name = fc.name ∧ r.result = "CRM Updated Successfully" := by
  induction calls generalizing lead with
  | nil => cases hmem
  | cons c rest ih =>
      cases hmem with
      | head =>
          refine ⟨⟨fc.id, fc.name, "CRM Updated Successfully"⟩, ?_, rfl, rfl, rfl⟩
          simp [handleToolCall, hname]
      | tail _ hmem =>
          by_cases hc : c.name = "updateLeadInfo"
          · obtain ⟨r, hr, hprops⟩ := ih (mergeLead lead c.args) hmem
            refine ⟨r, ?_, hprops⟩
            simp [handleToolCall, hc]
            exact Or.inr hr
          · obtain ⟨r, hr, hprops⟩ := ih lead hmem
            refine ⟨r, ?_, hprops⟩
            simpa [handleToolCall, hc] using hr

/-- The lead record produced by the tool-call loop is the left fold of
the additive merge over the `updateLeadInfo` calls, in arrival order.
Helper induction shared by C7. -/
theorem handleToolCall_lead (calls : List FunctionCall) (lead : LeadData) :
    (handleToolCall calls lead).1 =
      calls.foldl
        (fun l c => if c.name = "updateLeadInfo" then mergeLead l c.args else l)
        lead := by
  induction calls generalizing lead with
  | nil => rfl
  | cons c rest ih =>
      by_cases hc : c.name = "updateLeadInfo" <;>
        simp [handleToolCall, hc, ih]

/-- C7: For every `updateLeadInfo` invocation in a delivered tool-call
message, regardless of which subset of fields its arguments carry, the
client merges the fields into the lead record (an additive merge folded
in arrival order) and the acknowledgment list contains a success result
referencing the same call identifier. -/
theorem lead_tool_ack (calls : List FunctionCall) (lead : LeadData)
    (fc : FunctionCall) (hmem : fc ∈ calls) (hname : fc.name = "updateLeadInfo") :
    (∃ r ∈ (handleToolCall calls lead).2,
      r.id = fc.id ∧ r.name = fc.name ∧ r.result = "CRM Updated Successfully") ∧
    (handleToolCall calls lead).1 =
      calls.foldl
        (fun l c => if c.name = "updateLeadInfo" then mergeLead l c.args else l)
        lead :=
  ⟨handleToolCall_ack calls lead fc hmem hname, handleToolCall_lead calls lead⟩

/-- Witness for C7: a single `updateLeadInfo` call with empty arguments
is acknowledged with its id. -/
theorem lead_tool_ack_witness :
    ∃ r ∈ (handleToolCall [⟨"call-7", "updateLeadInfo", emptyLead⟩] emptyLead).2,
      r.id = "call-7" ∧ r.name = "updateLeadInfo" ∧
      r.result = "CRM Updated Successfully" :=
  (lead_tool_ack [⟨"call-7", "updateLeadInfo", emptyLead⟩] emptyLead
    ⟨"call-7", "updateLeadInfo", emptyLead⟩ (by simp) rfl).1

/-- C10: A function call whose name is not `updateLeadInfo` changes
nothing: the lead record and the acknowledgment list are exactly those of
the remaining calls — the unknown call is silently skipped, neither
rejected nor acknowledged. -/
theorem unknown_tool_ignored (fc : FunctionCall) (rest : List FunctionCall)
    (lead : LeadData) (h : fc.name ≠ "updateLeadInfo") :
    handleToolCall (fc :: rest) lead = handleToolCall rest lead := by
  simp [handleToolCall, h]

/-- Witness for C10: a call named `someOtherTool` on its own produces no
lead change and an empty response list. -/
theorem unknown_tool_ignored_witness :
    ("someOtherTool" ≠ "updateLeadInfo") ∧
    handleToolCall [⟨"call-10", "someOtherTool", emptyLead⟩] emptyLead =
      handleToolCall [] emptyLead :=
  ⟨by decide,
   unknown_tool_ignored ⟨"call-10", "someOtherTool", emptyLead⟩ [] emptyLead
     (by decide)⟩


/-- The connection state machine of the App. -/
inductive ConnectionState where
  | DISCONNECTED
  | CONNECTING
  | CONNECTED
  | ERROR
deriving DecidableEq, Repr

/-- The App-level state: the credential, the connection state, the
accumulated lead record, the user-visible error message, one flag per
audio resource ref (`true` = currently held), the playback state, and
whether a remote session has been opened (`sessionPromiseRef` set). -/
structure AppState where
  apiKey : String
  connectionState : ConnectionState
  leadData : LeadData
  errorMsg : Option String
  processorHeld : Bool
  sourceHeld : Bool
  mediaStreamHeld : Bool
  inputCtxHeld : Bool
  outputCtxHeld : Bool
  playback : PlaybackState
  sessionOpen : Bool
deriving DecidableEq, Repr

/-- `stopAudio`: disconnects and drops the processor, the input source,
the media stream tracks, and both audio contexts; stops every scheduled
source and clears the set; resets the cursor to 0. It does not touch the
speaking indicator, the lead record, or the connection state. -/
def stopAudio (s : AppState) : AppState :=
  { s with
      processorHeld := false,
      sourceHeld := false,
      mediaStreamHeld := false,
      inputCtxHeld := false,
      outputCtxHeld := false,
      playback := { s.playback with scheduledSources := [], nextStartTime := 0 } }

/-- `connectToLiveAPI` up to the opening of the remote session: the
empty-credential guard sets only the error message and returns; otherwise
the state advances to CONNECTING and, if audio initialization succeeds
(`audioInitOk`), the remote session is opened; if it throws, the catch
sets the error message and ERROR and tears audio down. -/
def connectRequest (audioInitOk : Bool) (s : AppState) : AppState :=
  if s.apiKey = "" then
    { s with errorMsg := some "API Key is required." }
  else
    let s1 := { s with connectionState := ConnectionState.CONNECTING, errorMsg := none }
    if audioInitOk then
      { s1 with
          processorHeld := true, sourceHeld := true, mediaStreamHeld := true,
          inputCtxHeld := true, outputCtxHeld := true, sessionOpen := true }
    else
      stopAudio
        { s1 with
            errorMsg := some "Failed to access microphone. Please allow permissions.",
            connectionState := ConnectionState.ERROR }

/-- The `onclose` callback: the connection state becomes DISCONNECTED and
`stopAudio` releases the capture and playback resources. -/
def onClose (s : AppState) : AppState :=
  stopAudio { s with connectionState := ConnectionState.DISCONNECTED }

/-- An App state in the Disconnected state with an empty credential, used
as the concrete input refuting C6 as stated. -/
def disconnectedNoKey : AppState :=
  { apiKey := "",
    connectionState := ConnectionState.DISCONNECTED,
    leadData := emptyLead,
    errorMsg := none,
    processorHeld := false, sourceHeld := false, mediaStreamHeld := false,
    inputCtxHeld := false, outputCtxHeld := false,
    playback := initPlayback,
    sessionOpen := false }

/-- C6 counterexample: from Disconnected with an empty credential, a
connect request leaves the connection state DISCONNECTED — it does not
transition to ERROR as the claim states; the guard only sets the
user-visible error message and returns. -/
theorem empty_key_not_error_state :
    (connectRequest true disconnectedNoKey).connectionState =
      ConnectionState.DISCONNECTED ∧
    (connectRequest true disconnectedNoKey).connectionState ≠
      ConnectionState.ERROR := by
  decide

/-- C6 amended: from Disconnected, a connect request with an empty
credential surfaces the validation error message and leaves the
connection state at DISCONNECTED — never reaching CONNECTING — and no
network session is opened. -/
theorem empty_key_validation (s : AppState) (b : Bool)
    (hkey : s.apiKey = "")
    (hdis : s.connectionState = ConnectionState.DISCONNECTED) :
    (connectRequest b s).connectionState = ConnectionState.DISCONNECTED ∧
    (connectRequest b s).connectionState ≠ ConnectionState.CONNECTING ∧
    (connectRequest b s).sessionOpen = s.sessionOpen ∧
    (connectRequest b s).errorMsg = some "API Key is required." := by
  simp [connectRequest, hkey, hdis]

/-- Witness for C6's amended claim at the concrete disconnected state
with an empty credential. -/
theorem empty_key_validation_witness :
    (connectRequest true disconnectedNoKey).connectionState =
        ConnectionState.DISCONNECTED ∧
    (connectRequest true disconnectedNoKey).connectionState ≠
        ConnectionState.CONNECTING ∧
    (connectRequest true disconnectedNoKey).sessionOpen =
        disconnectedNoKey.sessionOpen ∧
    (connectRequest true disconnectedNoKey).errorMsg =
        some "API Key is required." :=
  empty_key_validation disconnectedNoKey true rfl rfl

/-- C8: When the remote session reports "closed", the connection state
becomes DISCONNECTED, every capture and playback resource is released,
the ScheduledSourceSet is cleared and the cursor reset to 0, and the
accumulated lead record is left unchanged. -/
theorem onclose_releases_resources (s : AppState) :
    (onClose s).connectionState = ConnectionState.DISCONNECTED ∧
    (onClose s).processorHeld = false ∧
    (onClose s).sourceHeld = false ∧
    (onClose s).mediaStreamHeld = false ∧
    (onClose s).inputCtxHeld = false ∧
    (onClose s).outputCtxHeld = false ∧
    (onClose s).playback.scheduledSources = [] ∧
    (onClose s).playback.nextStartTime = 0 ∧
    (onClose s).leadData = s.leadData := by
  exact ⟨rfl, rfl, rfl, rfl, rfl, rfl, rfl, rfl, rfl⟩

/-- The per-frame volume computation of `processor.onaudioprocess`: the
root of the mean squared sample value, amplified by 5 and clamped at 1
(`Math.min(rms * 5, 1)`), over real-valued samples. -/
noncomputable def computeVolume (samples : List ℝ) : ℝ :=
  let rms := Real.sqrt ((samples.map (fun x => x * x)).sum / samples.length)
  min (rms * 5) 1

/-- C9: For every captured frame of samples in the range `[-1, 1]`, the
volume signal equals `min (5 * sqrt (mean of squared samples)) 1`, and
this value lies in `[0, 1]`. -/
theorem volume_formula_bounds (samples : List ℝ)
    (_hrange : ∀ x ∈ samples, -1 ≤ x ∧ x ≤ 1) :
    computeVolume samples =
      min (5 * Real.sqrt ((samples.map (fun x => x * x)).sum / samples.length)) 1 ∧
    0 ≤ computeVolume samples ∧ computeVolume samples ≤ 1 := by
  refine ⟨by rw [computeVolume, mul_comm], ?_, ?_⟩
  · unfold computeVolume
    exact le_min (by positivity) zero_le_one
  · unfold computeVolume
    exact min_le_right _ _

/-- Witness for C9 at the all-zero frame `[0]`: the sample is in range
and the computed volume lies in `[0, 1]`. -/
theorem volume_formula_bounds_witness :
    (∀ x ∈ ([0] : List ℝ), -1 ≤ x ∧ x ≤ 1) ∧
    (0 ≤ computeVolume [0] ∧ computeVolume [0] ≤ 1) :=
  ⟨by norm_num,
   (volume_formula_bounds [0] (by norm_num)).2⟩
